import Mathlib

/-!
Verification of the per-connection protocol session engine of the Pumpkin
server fork, shallowly embedded from the Rust sources under
`pumpkin/src/net/java/{mod.rs, login.rs}` and
`pumpkin-config/src/networking/proxy.rs`.

Pure fragments of the source become Lean functions; the stateful outbound
queue and the packet codec become explicit state records; async side effects
(packets sent, kicks, collaborator queries) are recorded as event traces.
Components of the repository that are not part of the provided sources
(the protocol packet constant tables, the BungeeCord parser, the key store,
username validation, offline UUIDs) are modelled from the specification and
are marked as such in their doc comments.
-/

namespace Pumpkin

/-- Modelled from the spec: a UUID is an opaque identifier; the three ways a
session can obtain one (client-supplied, deterministic offline derivation,
parsed from proxy forwarding data) are kept as distinct constructors since
the hash-based derivations live outside the provided sources. -/
inductive Uuid where
  | client (n : Nat)
  | offline (name : String)
  | parsed (s : String)
deriving DecidableEq

/-- Modelled from the spec: a signed profile property (name, value, optional
signature). -/
structure ProfileProperty where
  name : String
  value : String
  signature : Option String
deriving DecidableEq

/-- Modelled from the spec: GameProfile is {id, name, signed properties,
optional moderation flags}; field names follow the Rust struct as used in
`login.rs`. -/
structure GameProfile where
  id : Uuid
  name : String
  properties : List ProfileProperty
  profile_actions : Option (List String)
deriving DecidableEq

/-- Embeds `ProxyType` from `pumpkin-config/src/networking/proxy.rs`
(the `BengeeCord` spelling is the Rust enum variant as written). -/
inductive ProxyType where
  | BengeeCord
  | Velocity (secret : String)
deriving DecidableEq

/-- Embeds `VelocityConfig` from `pumpkin-config/src/networking/proxy.rs`. -/
structure VelocityConfig where
  enabled : Bool
  secret : String
deriving DecidableEq

/-- Embeds `BungeeCordConfig` from `pumpkin-config/src/networking/proxy.rs`. -/
structure BungeeCordConfig where
  enabled : Bool
deriving DecidableEq

/-- Embeds `ProxyConfig` from `pumpkin-config/src/networking/proxy.rs`. -/
structure ProxyConfig where
  enabled : Bool
  velocity : VelocityConfig
  bungeecord : BungeeCordConfig
deriving DecidableEq

/-- Result of `ProxyConfig::to_proxy_type`: either a normal return or the
`unreachable!` panic arm. -/
inductive ToProxyResult where
  | panicked
  | result (t : Option ProxyType)
deriving DecidableEq

/-- Embeds `ProxyConfig::to_proxy_type`
(`pumpkin-config/src/networking/proxy.rs` lines 29 to 45): if enabled,
Velocity when the velocity sub-config is enabled, else BungeeCord when the
bungeecord sub-config is enabled, else the `unreachable!` panic; if not
enabled, `None`. -/
def ProxyConfig.to_proxy_type (c : ProxyConfig) : ToProxyResult :=
  if c.enabled then
    if c.velocity.enabled then
      .result (some (.Velocity c.velocity.secret))
    else if c.bungeecord.enabled then
      .result (some .BengeeCord)
    else
      .panicked
  else
    .result none

/-- Embeds `AuthError` as referenced from `login.rs` (the enum body lives in
`net/authentication.rs`, outside the provided sources; the variant names are
those used in `login.rs`). -/
inductive AuthError where
  | FailedResponse
  | UnverifiedUsername
  | Banned
  | DisallowedAction
  | TextureError
deriving DecidableEq

/-- Modelled from the spec: malformed NUL-separated segments in the
BungeeCord forwarding data are a fatal `BungeeCordError`. -/
inductive BungeeCordError where
  | MalformedData
deriving DecidableEq

/-- Modelled from the spec: Velocity failures are fatal `VelocityError`
values; the payload is abstracted. -/
inductive VelocityError where
  | InvalidSignature
deriving DecidableEq

/-- Embeds `LoginError` from `pumpkin/src/net/java/mod.rs` lines 672 to 681. -/
inductive LoginError where
  | InvalidHandshake
  | ServerRejected
  | InvalidUsername
  | IgnoredPluginRequest
  | ReadError
  | VelocityFailure (e : VelocityError)
  | BungeeCordFailure (e : BungeeCordError)
deriving DecidableEq

/-- Embeds the `EncryptionError::SharedWrongLength` variant used by
`set_encryption` in `pumpkin/src/net/java/mod.rs`. -/
inductive EncryptionError where
  | SharedWrongLength
deriving DecidableEq

/-- Reasons attached to kick events; these stand for the distinct
`TextComponent` messages built in `login.rs`. -/
inductive KickReason where
  | serverFull
  | sharedWrongLength
  | noGameProfile
  | authFailed (e : AuthError)
  | duplicateLogin
deriving DecidableEq

/-- Observable side effects of the login handlers, in program order. -/
inductive Event where
  | kick (r : KickReason)
  | sendEncryptionRequest
  | sendSetCompression
  | sendLoginSuccess
  | canPlayerJoin (name : String) (id : Uuid)
  | velocityLogin
deriving DecidableEq

/-- Embeds the `SLoginStart` packet fields (username and client-supplied
UUID) as used by `handle_login_start`. -/
structure SLoginStart where
  name : String
  uuid : Uuid
deriving DecidableEq

/-- Embeds the `SEncryptionResponse` packet fields; per the spec the client
sends back the RSA-encrypted shared secret and the verify token. Bytes are
lists of naturals. -/
structure SEncryptionResponse where
  shared_secret : List Nat
  verify_token : List Nat
deriving DecidableEq

/-- Configuration surface consumed by the login handlers: `max_players`,
`online_mode` and `encryption` from `BASIC_CONFIG`, compression and the
resolved proxy type from the advanced networking config. `max_players` is
`Option` of the nonzero count, `none` meaning unset. -/
structure LoginConfig where
  max_players : Option Nat
  online_mode : Bool
  encryption : Bool
  compression_enabled : Bool
  proxy : Option ProxyType
deriving DecidableEq

/-- Modelled from the spec: usernames are 3 to 16 characters, alphanumeric
or underscore (`is_valid_player_name` lives in `net/mod.rs`, outside the
provided sources). -/
def is_valid_player_name (name : String) : Bool :=
  let cs := name.toList
  decide (3 ≤ cs.length) && decide (cs.length ≤ 16) &&
    cs.all (fun c => c.isAlphanum || c = '_')

/-- Modelled from the spec: the offline UUID is derived deterministically
from the username (`offline_uuid` lives in `net/mod.rs`, outside the
provided sources; the hash itself is abstracted into a constructor). -/
def offline_uuid (name : String) : Uuid :=
  .offline name

/-- The NUL character separating BungeeCord forwarding segments. -/
def nulChar : Char := Char.ofNat 0

/-- Splits a character list at every NUL, by structural recursion so the
kernel can evaluate it. -/
def split_on_nul : List Char → List (List Char)
  | [] => [[]]
  | c :: rest =>
    if c = nulChar then
      [] :: split_on_nul rest
    else
      match split_on_nul rest with
      | [] => [[c]]
      | s :: ss => (c :: s) :: ss

/-- Modelled from the spec: `bungeecord_login` (in `net/proxy/bungeecord.rs`,
outside the provided sources) parses the handshake server-address field as
NUL-separated segments hostname, real client address, UUID, optional signed
properties JSON, returning the forwarded address together with the parsed
GameProfile; malformed segments are a fatal `BungeeCordError`. Property JSON
decoding is abstracted to an empty property list. -/
def bungeecord_login (physical_address : String) (server_address : String)
    (name : String) : Except BungeeCordError (String × GameProfile) :=
  match split_on_nul server_address.toList with
  | [_host, addr, uuidStr] =>
      .ok (String.mk addr, ⟨.parsed (String.mk uuidStr), name, [], none⟩)
  | [_host, addr, uuidStr, _props] =>
      .ok (String.mk addr, ⟨.parsed (String.mk uuidStr), name, [], none⟩)
  | _ => .error .MalformedData

/-- Embeds the capacity gate of `handle_login_start`
(`login.rs` line 103): the literal test `max_players.is_some_and(|num|
num.get() < 5)`; the gate passing (true) means the login is not kicked as
server-full. -/
def max_players_gate (max_players : Option Nat) : Bool :=
  match max_players with
  | some n => decide (n < 5)
  | none => false

/-- Outcome of `handle_login_start`: the Rust `Result` plus the `todo!`
panic on the Velocity arm. -/
inductive LoginResult where
  | ok (profile : GameProfile) (addr : String)
  | err (e : LoginError)
  | panicTodo
deriving DecidableEq

/-- Embeds `LoginClient::process_vanilla_login_start`
(`login.rs` lines 133 to 168): pick the UUID (client-supplied when online,
offline derivation otherwise), build the profile, optionally enable
compression, then either send the encryption request or immediately finish
the login with a Login Success packet. -/
def process_vanilla_login_start (cfg : LoginConfig) (login_start : SLoginStart)
    (physical_address : String) : List Event × LoginResult :=
  let id := if cfg.online_mode then login_start.uuid
            else offline_uuid login_start.name
  let profile : GameProfile := ⟨id, login_start.name, [], none⟩
  let evsCompression := if cfg.compression_enabled then [Event.sendSetCompression] else []
  let evsFinish := if cfg.encryption then [Event.sendEncryptionRequest]
                   else [Event.sendLoginSuccess]
  (evsCompression ++ evsFinish, .ok profile physical_address)

/-- Embeds `LoginClient::handle_login_start` (`login.rs` lines 92 to 131):
first the capacity gate (kick server-full when
`!max_players.is_some_and(|num| num.get() < 5)`), then username
validation, then the branch on the configured proxy type. The BungeeCord
arm maps the parsed pair through `|(_, profile)| (profile, self.address)`,
so the returned peer address is the physical socket address. The Velocity
arm runs `velocity_login` and then hits `todo!`. -/
def handle_login_start (cfg : LoginConfig) (login_start : SLoginStart)
    (physical_address : String) (server_address : String) :
    List Event × LoginResult :=
  if !(max_players_gate cfg.max_players) then
    ([Event.kick .serverFull], .err .ServerRejected)
  else if !(is_valid_player_name login_start.name) then
    ([], .err .InvalidUsername)
  else
    match cfg.proxy with
    | some (.Velocity _) => ([Event.velocityLogin], .panicTodo)
    | some .BengeeCord =>
        match bungeecord_login physical_address server_address login_start.name with
        | .ok (_, profile) => ([], .ok profile physical_address)
        | .error e => ([], .err (.BungeeCordFailure e))
    | none => process_vanilla_login_start cfg login_start physical_address

/-- Cipher state of the two codec directions; `none` is plaintext mode. -/
structure CodecState where
  read_cipher : Option (List Nat)
  write_cipher : Option (List Nat)
deriving DecidableEq

/-- Embeds `LoginClient::set_encryption` (`mod.rs` lines 703 to 713): the
decrypted shared secret must convert to a 16-byte key, else
`SharedWrongLength` is returned before either codec is touched; on success
both the read and the write codec get the key. -/
def set_encryption (shared_secret : List Nat) (st : CodecState) :
    Except EncryptionError CodecState :=
  if shared_secret.length = 16 then
    .ok ⟨some shared_secret, some shared_secret⟩
  else
    .error .SharedWrongLength

/-- Embeds `LoginClient::check_player_exists` (`login.rs` lines 228 to 234):
true when sending the `CanPlayerJoin` event fails, or when the oneshot
reply is not `Ok(true)` (a dropped sender is modelled as `none`). -/
def check_player_exists (send_ok : Bool) (reply : Option Bool) : Bool :=
  !send_ok || !(reply == some true)

/-- Embeds the online-mode authentication block of
`handle_encryption_response` (`login.rs` lines 189 to 207): when online, an
`Ok` profile from the authentication call replaces the stored profile, and
an error kicks with the matching message but does not return, so the
handler continues with the old profile. -/
def auth_step (online_mode : Bool) (auth : Except AuthError GameProfile)
    (profile : GameProfile) : List Event × GameProfile :=
  if online_mode then
    match auth with
    | .ok newProfile => ([], newProfile)
    | .error e => ([Event.kick (.authFailed e)], profile)
  else ([], profile)

/-- Embeds `LoginClient::handle_encryption_response`
(`login.rs` lines 170 to 226). Inputs stand for the ambient state the Rust
method reads: the private-key decryption function of the key store, the
codec state, the profile mutex content, the result the authentication call
would produce, and the two observable outcomes of the duplicate-login
rendezvous. The overall `none` is the `.unwrap()` panic when decryption
fails. Note the source never inspects `resp.verify_token`, and the
authentication-error arm kicks without returning. -/
def handle_encryption_response (online_mode : Bool)
    (decrypt : List Nat → Option (List Nat)) (resp : SEncryptionResponse)
    (codec : CodecState) (gameprofile : Option GameProfile)
    (auth : Except AuthError GameProfile) (send_ok : Bool)
    (reply : Option Bool) :
    Option (List Event × CodecState × Option GameProfile) :=
  match decrypt resp.shared_secret with
  | none => none
  | some shared =>
    match set_encryption shared codec with
    | .error _ => some ([Event.kick .sharedWrongLength], codec, gameprofile)
    | .ok codec1 =>
      match gameprofile with
      | none => some ([Event.kick .noGameProfile], codec1, none)
      | some profile =>
        if check_player_exists send_ok reply then
          some ((auth_step online_mode auth profile).1 ++
                  [Event.canPlayerJoin (auth_step online_mode auth profile).2.name
                     (auth_step online_mode auth profile).2.id,
                   Event.kick .duplicateLogin],
                codec1, some (auth_step online_mode auth profile).2)
        else
          some ((auth_step online_mode auth profile).1 ++
                  [Event.canPlayerJoin (auth_step online_mode auth profile).2.name
                     (auth_step online_mode auth profile).2.id,
                   Event.sendLoginSuccess],
                codec1, some (auth_step online_mode auth profile).2)

/-- Embeds `ConnectionState` as matched in `mod.rs`. -/
inductive ConnState where
  | HandShake
  | Status
  | Login
  | Transfer
  | Config
  | Play
deriving DecidableEq

/-- Outcome of dispatching one raw packet in the current state: a handler
ran, the match fell to an `Err(ReadingError::Message ...)` arm, or the match
fell to a `log` arm that returns `Ok(())`. -/
inductive DispatchOutcome where
  | handled
  | readErr (msg : String)
  | logIgnored
deriving DecidableEq

/-- Modelled from the spec: the packet ids handled by the Handshake match in
`handle_handshake_packet` (the numeric `PACKET_ID` constants live in the
protocol crate, outside the provided sources; ids are small integers scoped
per state). -/
def handshake_ids : List Int := [0]

/-- Modelled from the spec: ids handled by `handle_status_packet`
(status request, ping request). -/
def status_ids : List Int := [0, 1]

/-- Modelled from the spec: ids handled by `handle_login_handshake`
(login start, encryption response, plugin response, login acknowledged,
cookie response). -/
def login_ids : List Int := [0, 1, 2, 3, 4]

/-- Modelled from the spec: ids handled by `handle_config_packet`
(client information, cookie response, plugin message, acknowledge finish,
resource pack, known packs). -/
def config_ids : List Int := [0, 1, 2, 3, 6, 7]

/-- Modelled from the spec: ids handled by the large `handle_play_packet`
match; stand-ins for the serverbound play `PACKET_ID` constants. -/
def play_ids : List Int := (List.range 37).map Int.ofNat

/-- Embeds the per-state dispatch of `JavaClient::handle_packet` and the
per-state handler matches (`mod.rs` lines 297 to 669): the Handshake and
Status default arms build a `ReadingError::Message`, while the Login,
Config and Play default arms log and return `Ok(())`. Login and Transfer
share the login table. -/
def handle_packet (cs : ConnState) (id : Int) : DispatchOutcome :=
  match cs with
  | .HandShake =>
      if id ∈ handshake_ids then .handled
      else .readErr "Failed to handle packet id in Handshake State"
  | .Status =>
      if id ∈ status_ids then .handled
      else .readErr "Failed to handle java client packet id in Status State"
  | .Login | .Transfer =>
      if id ∈ login_ids then .handled else .logIgnored
  | .Config =>
      if id ∈ config_ids then .handled else .logIgnored
  | .Play =>
      if id ∈ play_ids then .handled else .logIgnored

/-- What the read loop does with the dispatch outcome. -/
inductive ReadAction where
  | keepGoing
  | kicked (msg : String)
deriving DecidableEq

/-- Embeds `JavaClient::read_packet` (`mod.rs` lines 418 to 445): an error
returned by `handle_packet` becomes a kick with a diagnostic message, an
`Ok` result continues the loop. -/
def read_packet_action (o : DispatchOutcome) : ReadAction :=
  match o with
  | .readErr m => .kicked m
  | _ => .keepGoing

/-- A serialized outbound packet: regular data or one of the three
state-specific disconnect packets. -/
inductive OutMsg where
  | data (n : Nat)
  | loginDisconnect (reason : String)
  | configDisconnect (reason : String)
  | playDisconnect (reason : String)
deriving DecidableEq

/-- Outbound side of a session: the bounded ordered channel of queued
packets, the bytes already written to the socket (in write order), and the
atomic closed flag. -/
structure OutState where
  queue : List OutMsg
  wire : List OutMsg
  closed : Bool
deriving DecidableEq

/-- Embeds `JavaClient::enqueue_packet_data` (`mod.rs` lines 236 to 247):
push onto the ordered outbound channel. -/
def enqueue_packet_data (st : OutState) (m : OutMsg) : OutState :=
  { st with queue := st.queue ++ [m] }

/-- Embeds the free function `send_packet_now` (`mod.rs` lines 726 to 741):
encode and write directly to the socket writer, bypassing the outbound
queue. -/
def send_packet_now (st : OutState) (m : OutMsg) : OutState :=
  { st with wire := st.wire ++ [m] }

/-- Embeds one step of `JavaClient::process_send` (`mod.rs` lines 399 to
416): the writer task pops the next queued packet and writes it. -/
def process_send (st : OutState) : OutState :=
  match st.queue with
  | [] => st
  | m :: rest => { st with queue := rest, wire := st.wire ++ [m] }

/-- Embeds `JavaClient::close` (`mod.rs` lines 456 to 459): notify waiters
and set the closed flag; no disconnect packet is sent. -/
def close_conn (st : OutState) : OutState :=
  { st with closed := true }

/-- The state-appropriate disconnect packet chosen by `kick`
(`mod.rs` lines 253 to 271): Login, Config and Play each have one, every
other state sends nothing. -/
def disconnect_packet (cs : ConnState) (reason : String) : Option OutMsg :=
  match cs with
  | .Login => some (.loginDisconnect reason)
  | .Config => some (.configDisconnect reason)
  | .Play => some (.playDisconnect reason)
  | _ => none

/-- Embeds `JavaClient::kick` (`mod.rs` lines 253 to 271): send the
state-appropriate disconnect packet with `send_packet_now` (a direct socket
write), then call `close`. -/
def kick (cs : ConnState) (st : OutState) (reason : String) : OutState :=
  let st1 :=
    match disconnect_packet cs reason with
    | some m => send_packet_now st m
    | none => st
  close_conn st1

/-- The concrete BungeeCord forwarding scenario from the spec: handshake
server-address field hostname, forwarded real client address, UUID and
properties JSON separated by NUL bytes. -/
def bungee_scenario_address : String :=
  "play.example.com" ++ String.mk [nulChar] ++ "203.0.113.7" ++
    String.mk [nulChar] ++ "069a79f4-44e9-4726-a5be-fca90e38aaf5" ++
    String.mk [nulChar] ++ "[]"

/-! ## Theorems -/

/-- Helper: the authentication block emits only kick events, never a Login
Success packet or a CanPlayerJoin query. -/
theorem auth_step_events (online_mode : Bool) (auth : Except AuthError GameProfile)
    (profile : GameProfile) :
    Event.sendLoginSuccess ∉ (auth_step online_mode auth profile).1 ∧
    ∀ nm id, Event.canPlayerJoin nm id ∉ (auth_step online_mode auth profile).1 := by
  cases online_mode with
  | false => simp [auth_step]
  | true =>
    cases auth with
    | ok p => simp [auth_step]
    | error e => simp [auth_step]

/-- C1: code bug. The capacity gate of `handle_login_start` is the literal
`!max_players.is_some_and(|num| num.get() < 5)`: with `max_players` unset
every login is kicked as server-full (the claim and the code comment say no
limit is then enforced), with `max_players = 100` every login is kicked,
and with `max_players = 1` the login proceeds unconditionally because the
connected-player count is never consulted. -/
theorem handle_login_start_server_full_bug :
    handle_login_start ⟨none, false, false, false, none⟩ ⟨"Steve", .client 7⟩
        "198.51.100.9:54321" "" =
      ([Event.kick .serverFull], .err .ServerRejected) ∧
    handle_login_start ⟨some 100, false, false, false, none⟩ ⟨"Steve", .client 7⟩
        "198.51.100.9:54321" "" =
      ([Event.kick .serverFull], .err .ServerRejected) ∧
    handle_login_start ⟨some 1, false, false, false, none⟩ ⟨"Steve", .client 7⟩
        "198.51.100.9:54321" "" =
      ([Event.sendLoginSuccess],
        .ok ⟨.offline "Steve", "Steve", [], none⟩ "198.51.100.9:54321") := by
  refine ⟨rfl, rfl, by decide⟩

/-- C2: code bug. `handle_encryption_response` never reads the verify token
of the encryption response: its result is invariant under changing the
token, and at a concrete run whose returned token differs from the issued
one the handler still proceeds to Login Success with no kick at all. -/
theorem handle_encryption_response_ignores_verify_token :
    (∀ (online_mode : Bool) (decrypt : List Nat → Option (List Nat))
        (resp : SEncryptionResponse) (t : List Nat) (codec : CodecState)
        (gp : Option GameProfile) (auth : Except AuthError GameProfile)
        (send_ok : Bool) (reply : Option Bool),
        handle_encryption_response online_mode decrypt
            { resp with verify_token := t } codec gp auth send_ok reply =
          handle_encryption_response online_mode decrypt resp codec gp auth
            send_ok reply) ∧
    ([1, 1, 1, 1] : List Nat) ≠ [0, 0, 0, 0] ∧
    handle_encryption_response false (fun x => some x)
        ⟨List.range 16, [1, 1, 1, 1]⟩ ⟨none, none⟩
        (some ⟨.offline "Steve", "Steve", [], none⟩)
        (.ok ⟨.offline "Steve", "Steve", [], none⟩) true (some true) =
      some ([Event.canPlayerJoin "Steve" (.offline "Steve"), Event.sendLoginSuccess],
            ⟨some (List.range 16), some (List.range 16)⟩,
            some ⟨.offline "Steve", "Steve", [], none⟩) ∧
    ∀ r, Event.kick r ∉
      ([Event.canPlayerJoin "Steve" (.offline "Steve"), Event.sendLoginSuccess] :
        List Event) := by
  refine ⟨fun _ _ _ _ _ _ _ _ _ => rfl, by decide, by decide, ?_⟩
  intro r hr
  simp [List.mem_cons] at hr

/-- C3 counterexample: on the vanilla no-encryption path a GameProfile is
produced and Login Success is sent with no CanPlayerJoin query anywhere in
the trace, so the duplicate-login check does not run on every
profile-producing path. -/
theorem offline_login_skips_duplicate_check :
    (handle_login_start ⟨some 1, false, false, false, none⟩ ⟨"Steve", .client 9⟩
        "203.0.113.9:50000" "").2 =
      .ok ⟨.offline "Steve", "Steve", [], none⟩ "203.0.113.9:50000" ∧
    Event.sendLoginSuccess ∈
      (handle_login_start ⟨some 1, false, false, false, none⟩ ⟨"Steve", .client 9⟩
        "203.0.113.9:50000" "").1 ∧
    ∀ nm id, Event.canPlayerJoin nm id ∉
      (handle_login_start ⟨some 1, false, false, false, none⟩ ⟨"Steve", .client 9⟩
        "203.0.113.9:50000" "").1 := by
  refine ⟨by decide, by decide, ?_⟩
  intro nm id hm
  have hev : (handle_login_start ⟨some 1, false, false, false, none⟩
      ⟨"Steve", .client 9⟩ "203.0.113.9:50000" "").1 = [Event.sendLoginSuccess] := by
    decide
  rw [hev] at hm
  simp [List.mem_cons] at hm

/-- C3 amended: on the vanilla-with-encryption path
(`handle_encryption_response`), whenever Login Success appears in the
trace the CanPlayerJoin query immediately precedes it and the duplicate
answer was negative; and a positive duplicate answer means Login Success
is never sent and, whenever the query was reached, the trace carries the
duplicate-login kick. -/
theorem encryption_response_duplicate_check_before_success
    (online_mode : Bool) (decrypt : List Nat → Option (List Nat))
    (resp : SEncryptionResponse) (codec : CodecState)
    (gp : Option GameProfile) (auth : Except AuthError GameProfile)
    (send_ok : Bool) (reply : Option Bool)
    (tr : List Event) (c : CodecState) (g : Option GameProfile)
    (h : handle_encryption_response online_mode decrypt resp codec gp auth
      send_ok reply = some (tr, c, g)) :
    (Event.sendLoginSuccess ∈ tr →
      check_player_exists send_ok reply = false ∧
      ∃ l nm id, tr = l ++ [Event.canPlayerJoin nm id, Event.sendLoginSuccess]) ∧
    (check_player_exists send_ok reply = true →
      Event.sendLoginSuccess ∉ tr ∧
      ∀ nm id, Event.canPlayerJoin nm id ∈ tr →
        Event.kick KickReason.duplicateLogin ∈ tr) := by
  unfold handle_encryption_response at h
  split at h
  · exact absurd h (by simp)
  · split at h
    · simp only [Option.some.injEq, Prod.mk.injEq] at h
      obtain ⟨h1, -, -⟩ := h
      subst h1
      refine ⟨fun hs => absurd hs (by simp), fun _ => ⟨by simp, ?_⟩⟩
      intro nm id hm
      simp at hm
    · split at h
      · simp only [Option.some.injEq, Prod.mk.injEq] at h
        obtain ⟨h1, -, -⟩ := h
        subst h1
        refine ⟨fun hs => absurd hs (by simp), fun _ => ⟨by simp, ?_⟩⟩
        intro nm id hm
        simp at hm
      · rename_i profile
        split at h
        · rename_i hdup
          simp only [Option.some.injEq, Prod.mk.injEq] at h
          obtain ⟨h1, -, -⟩ := h
          subst h1
          obtain ⟨hs, hq⟩ := auth_step_events online_mode auth profile
          constructor
          · intro hmem
            rcases List.mem_append.mp hmem with hin | hin
            · exact absurd hin hs
            · simp [List.mem_cons] at hin
          · intro _
            refine ⟨?_, ?_⟩
            · intro hmem
              rcases List.mem_append.mp hmem with hin | hin
              · exact absurd hin hs
              · simp [List.mem_cons] at hin
            · intro nm id _
              exact List.mem_append.mpr (Or.inr (by simp))
        · rename_i hdup
          have hdupf : check_player_exists send_ok reply = false := by
            simpa using hdup
          simp only [Option.some.injEq, Prod.mk.injEq] at h
          obtain ⟨h1, -, -⟩ := h
          subst h1
          constructor
          · intro _
            exact ⟨hdupf,
              ⟨(auth_step online_mode auth profile).1,
               (auth_step online_mode auth profile).2.name,
               (auth_step online_mode auth profile).2.id, rfl⟩⟩
          · intro hc
            exact absurd hc hdup

/-- C3 witness: a concrete no-duplicate run through the encryption path,
obtained by applying the amended theorem at explicit inputs. -/
theorem encryption_response_duplicate_check_before_success_witness :
    check_player_exists true (some true) = false ∧
    ∃ l nm id,
      ([Event.canPlayerJoin "Steve" (Uuid.offline "Steve"), Event.sendLoginSuccess] :
          List Event) =
        l ++ [Event.canPlayerJoin nm id, Event.sendLoginSuccess] :=
  (encryption_response_duplicate_check_before_success false (fun x => some x)
      ⟨List.range 16, [1, 1, 1, 1]⟩ ⟨none, none⟩
      (some ⟨.offline "Steve", "Steve", [], none⟩)
      (.ok ⟨.offline "Steve", "Steve", [], none⟩) true (some true)
      [Event.canPlayerJoin "Steve" (Uuid.offline "Steve"), Event.sendLoginSuccess]
      ⟨some (List.range 16), some (List.range 16)⟩
      (some ⟨.offline "Steve", "Steve", [], none⟩) (by decide)).1 (by simp)

/-- C4 counterexample: in the Config state a packet id outside the dispatch
table is logged and ignored, the read loop keeps going and no kick
happens. -/
theorem config_unknown_packet_not_kicked :
    (99 : Int) ∉ config_ids ∧
    handle_packet .Config 99 = .logIgnored ∧
    read_packet_action (handle_packet .Config 99) = .keepGoing := by
  refine ⟨by decide, rfl, rfl⟩

/-- C4 amended: an unmatched packet id is kicked with a diagnostic message
only in the Handshake and Status states; in the Login, Transfer, Config and
Play states the default arm logs and the connection continues (and no state
crashes). -/
theorem unmatched_packet_dispatch_behavior (id : Int) :
    (id ∉ handshake_ids →
      ∃ m, read_packet_action (handle_packet .HandShake id) = .kicked m) ∧
    (id ∉ status_ids →
      ∃ m, read_packet_action (handle_packet .Status id) = .kicked m) ∧
    (id ∉ login_ids →
      handle_packet .Login id = .logIgnored ∧
      handle_packet .Transfer id = .logIgnored ∧
      read_packet_action (handle_packet .Login id) = .keepGoing) ∧
    (id ∉ config_ids →
      handle_packet .Config id = .logIgnored ∧
      read_packet_action (handle_packet .Config id) = .keepGoing) ∧
    (id ∉ play_ids →
      handle_packet .Play id = .logIgnored ∧
      read_packet_action (handle_packet .Play id) = .keepGoing) := by
  refine ⟨fun h => ?_, fun h => ?_, fun h => ?_, fun h => ?_, fun h => ?_⟩ <;>
    simp [handle_packet, read_packet_action, h]

/-- C4 witness: the amended theorem applied at the unmatched id 99 in the
Handshake state. -/
theorem unmatched_packet_dispatch_behavior_witness :
    ∃ m, read_packet_action (handle_packet .HandShake 99) = .kicked m :=
  (unmatched_packet_dispatch_behavior 99).1 (by decide)

/-- C5 counterexample: at the BungeeCord forwarding scenario from the spec,
`bungeecord_login` parses the forwarded address 203.0.113.7, but
`handle_login_start` discards it and returns the physical socket address
together with the parsed profile. -/
theorem bungeecord_returns_physical_address :
    bungeecord_login "198.51.100.9:54321" bungee_scenario_address "Steve" =
      .ok ("203.0.113.7",
        ⟨.parsed "069a79f4-44e9-4726-a5be-fca90e38aaf5", "Steve", [], none⟩) ∧
    handle_login_start ⟨some 1, false, false, false, some .BengeeCord⟩
        ⟨"Steve", .client 7⟩ "198.51.100.9:54321" bungee_scenario_address =
      ([], .ok ⟨.parsed "069a79f4-44e9-4726-a5be-fca90e38aaf5", "Steve", [], none⟩
        "198.51.100.9:54321") ∧
    ("198.51.100.9:54321" : String) ≠ "203.0.113.7" := by
  refine ⟨rfl, by decide, by decide⟩

/-- C5 amended: in BungeeCord mode, whenever the forwarding data parses,
`handle_login_start` returns the GameProfile from the forwarding data
paired with the physical socket address, whatever forwarded address was
parsed. -/
theorem bungeecord_profile_with_physical_address
    (cfg : LoginConfig) (ls : SLoginStart) (phys srv fwd : String)
    (profile : GameProfile)
    (hproxy : cfg.proxy = some .BengeeCord)
    (hgate : max_players_gate cfg.max_players = true)
    (hname : is_valid_player_name ls.name = true)
    (hbc : bungeecord_login phys srv ls.name = .ok (fwd, profile)) :
    handle_login_start cfg ls phys srv = ([], .ok profile phys) := by
  unfold handle_login_start
  rw [hgate, hname, hproxy]
  simp [hbc]

/-- C5 witness: the amended theorem applied at the concrete scenario. -/
theorem bungeecord_profile_with_physical_address_witness :
    handle_login_start ⟨some 1, false, false, false, some .BengeeCord⟩
        ⟨"Steve", .client 8⟩ "192.0.2.33:40000" bungee_scenario_address =
      ([], .ok ⟨.parsed "069a79f4-44e9-4726-a5be-fca90e38aaf5", "Steve", [], none⟩
        "192.0.2.33:40000") :=
  bungeecord_profile_with_physical_address
    ⟨some 1, false, false, false, some .BengeeCord⟩ ⟨"Steve", .client 8⟩
    "192.0.2.33:40000" bungee_scenario_address "203.0.113.7"
    ⟨.parsed "069a79f4-44e9-4726-a5be-fca90e38aaf5", "Steve", [], none⟩
    rfl (by decide) (by decide) rfl

/-- C6 counterexample: with a packet already enqueued and not yet drained,
`kick` leaves the queue untouched and writes the disconnect straight to the
wire, so the disconnect is never in the outbound queue and overtakes the
earlier-enqueued packet when the writer drains it. -/
theorem kick_bypasses_outbound_queue :
    kick .Login ⟨[OutMsg.data 1], [], false⟩ "bye" =
      ⟨[OutMsg.data 1], [OutMsg.loginDisconnect "bye"], true⟩ ∧
    OutMsg.loginDisconnect "bye" ∉
      (kick .Login ⟨[OutMsg.data 1], [], false⟩ "bye").queue ∧
    process_send (kick .Login ⟨[OutMsg.data 1], [], false⟩ "bye") =
      ⟨[], [OutMsg.loginDisconnect "bye", OutMsg.data 1], true⟩ := by
  refine ⟨rfl, by decide, rfl⟩

/-- C6 amended: in the Login, Config and Play states `kick` submits the
state-appropriate disconnect packet by a direct socket write that bypasses
the outbound queue, and only then sets the closed flag: the result is the
close of the state whose wire already ends in the disconnect, with the
queue unchanged. -/
theorem kick_direct_write_then_close (st : OutState) (r : String) :
    kick .Login st r = close_conn (send_packet_now st (.loginDisconnect r)) ∧
    kick .Config st r = close_conn (send_packet_now st (.configDisconnect r)) ∧
    kick .Play st r = close_conn (send_packet_now st (.playDisconnect r)) ∧
    kick .Login st r = ⟨st.queue, st.wire ++ [.loginDisconnect r], true⟩ ∧
    kick .Config st r = ⟨st.queue, st.wire ++ [.configDisconnect r], true⟩ ∧
    kick .Play st r = ⟨st.queue, st.wire ++ [.playDisconnect r], true⟩ := by
  refine ⟨rfl, rfl, rfl, ?_, ?_, ?_⟩ <;> rfl

/-- C7 counterexample: an invalid username combined with a configuration the
capacity gate rejects produces the server-full rejection, not the
invalid-username error, because the capacity gate runs first. -/
theorem invalid_username_rejected_as_server_full :
    is_valid_player_name "x!" = false ∧
    handle_login_start ⟨none, false, false, false, none⟩ ⟨"x!", .client 7⟩
        "198.51.100.9:54321" "" =
      ([Event.kick .serverFull], .err .ServerRejected) ∧
    (handle_login_start ⟨none, false, false, false, none⟩ ⟨"x!", .client 7⟩
        "198.51.100.9:54321" "").2 ≠ .err .InvalidUsername := by
  refine ⟨by decide, rfl, by decide⟩

/-- C7 amended: `handle_login_start` runs the capacity gate first: when the
gate rejects, the result is the server-full rejection regardless of the
username, and the invalid-username error arises exactly when the gate
passes and the name fails validation. -/
theorem capacity_gate_before_username_check
    (cfg : LoginConfig) (ls : SLoginStart) (phys srv : String) :
    (max_players_gate cfg.max_players = false →
      handle_login_start cfg ls phys srv =
        ([Event.kick .serverFull], .err .ServerRejected)) ∧
    (max_players_gate cfg.max_players = true →
      is_valid_player_name ls.name = false →
      handle_login_start cfg ls phys srv = ([], .err .InvalidUsername)) := by
  constructor
  · intro h
    unfold handle_login_start
    rw [h]
    rfl
  · intro h1 h2
    unfold handle_login_start
    rw [h1, h2]
    rfl

/-- C7 witness: the amended theorem applied with max_players 5 (gate fails
because 5 is not less than 5) and with a passing gate plus invalid name. -/
theorem capacity_gate_before_username_check_witness :
    handle_login_start ⟨some 5, false, false, false, none⟩ ⟨"Notch", .client 1⟩
        "p" "" = ([Event.kick .serverFull], .err .ServerRejected) ∧
    handle_login_start ⟨some 2, false, false, false, none⟩ ⟨"a", .client 1⟩
        "p" "" = ([], .err .InvalidUsername) :=
  ⟨(capacity_gate_before_username_check ⟨some 5, false, false, false, none⟩
      ⟨"Notch", .client 1⟩ "p" "").1 (by decide),
   (capacity_gate_before_username_check ⟨some 2, false, false, false, none⟩
      ⟨"a", .client 1⟩ "p" "").2 (by decide) (by decide)⟩

/-- C8: `set_encryption` installs the key on both the read codec and the
write codec together when the decrypted shared secret is exactly 16 bytes,
and on any other length returns SharedWrongLength; in that case
`handle_encryption_response` keeps the codec state completely unchanged, so
there is no partial-direction encryption. -/
theorem set_encryption_both_directions (s : List Nat) (st : CodecState) :
    (s.length = 16 → set_encryption s st = .ok ⟨some s, some s⟩) ∧
    (s.length ≠ 16 → set_encryption s st = .error .SharedWrongLength) ∧
    (s.length ≠ 16 →
      ∀ (online_mode : Bool) (t : List Nat) (gp : Option GameProfile)
        (auth : Except AuthError GameProfile) (send_ok : Bool)
        (reply : Option Bool),
        handle_encryption_response online_mode (fun _ => some s) ⟨t, []⟩ st gp
            auth send_ok reply =
          some ([Event.kick .sharedWrongLength], st, gp)) := by
  refine ⟨fun h => ?_, fun h => ?_, fun h => ?_⟩
  · unfold set_encryption
    rw [if_pos h]
  · unfold set_encryption
    rw [if_neg h]
  · intro om t gp auth so rp
    have hse : set_encryption s st = .error .SharedWrongLength := by
      unfold set_encryption
      rw [if_neg h]
    simp [handle_encryption_response, hse]

/-- C8 witness: the theorem applied at a 16-byte secret and at a 2-byte
secret. -/
theorem set_encryption_both_directions_witness :
    set_encryption (List.range 16) ⟨none, none⟩ =
      .ok ⟨some (List.range 16), some (List.range 16)⟩ ∧
    set_encryption [1, 2] ⟨none, none⟩ = .error .SharedWrongLength :=
  ⟨(set_encryption_both_directions (List.range 16) ⟨none, none⟩).1 (by decide),
   (set_encryption_both_directions [1, 2] ⟨none, none⟩).2.1 (by decide)⟩

/-- C9 counterexample: a configuration with proxy support enabled but
neither Velocity nor BungeeCord enabled makes `to_proxy_type` hit the
`unreachable!` panic instead of returning normally. -/
theorem to_proxy_type_panics_on_bare_enabled :
    ProxyConfig.to_proxy_type ⟨true, ⟨false, ""⟩, ⟨false⟩⟩ = .panicked ∧
    ∀ t, ProxyConfig.to_proxy_type ⟨true, ⟨false, ""⟩, ⟨false⟩⟩ ≠ .result t := by
  refine ⟨rfl, ?_⟩
  intro t h
  simp [ProxyConfig.to_proxy_type] at h

/-- C9 amended: `to_proxy_type` returns None when proxy support is
disabled, Velocity with the configured secret when the Velocity sub-config
is enabled, BungeeCord when only the BungeeCord sub-config is enabled, and
panics on the remaining configuration (proxy enabled, neither sub-config
enabled). -/
theorem to_proxy_type_characterization (c : ProxyConfig) :
    (c.enabled = false → c.to_proxy_type = .result none) ∧
    (c.enabled = true → c.velocity.enabled = true →
      c.to_proxy_type = .result (some (.Velocity c.velocity.secret))) ∧
    (c.enabled = true → c.velocity.enabled = false →
      c.bungeecord.enabled = true → c.to_proxy_type = .result (some .BengeeCord)) ∧
    (c.enabled = true → c.velocity.enabled = false →
      c.bungeecord.enabled = false → c.to_proxy_type = .panicked) := by
  refine ⟨fun h1 => ?_, fun h1 h2 => ?_, fun h1 h2 h3 => ?_, fun h1 h2 h3 => ?_⟩
  · simp [ProxyConfig.to_proxy_type, h1]
  · simp [ProxyConfig.to_proxy_type, h1, h2]
  · simp [ProxyConfig.to_proxy_type, h1, h2, h3]
  · simp [ProxyConfig.to_proxy_type, h1, h2, h3]

/-- C9 witness: the characterization applied at the four concrete
configurations. -/
theorem to_proxy_type_characterization_witness :
    ProxyConfig.to_proxy_type ⟨false, ⟨false, ""⟩, ⟨false⟩⟩ = .result none ∧
    ProxyConfig.to_proxy_type ⟨true, ⟨true, "s"⟩, ⟨false⟩⟩ =
      .result (some (.Velocity "s")) ∧
    ProxyConfig.to_proxy_type ⟨true, ⟨false, ""⟩, ⟨true⟩⟩ =
      .result (some .BengeeCord) ∧
    ProxyConfig.to_proxy_type ⟨true, ⟨false, ""⟩, ⟨false⟩⟩ = .panicked :=
  ⟨(to_proxy_type_characterization ⟨false, ⟨false, ""⟩, ⟨false⟩⟩).1 rfl,
   (to_proxy_type_characterization ⟨true, ⟨true, "s"⟩, ⟨false⟩⟩).2.1 rfl rfl,
   (to_proxy_type_characterization ⟨true, ⟨false, ""⟩, ⟨true⟩⟩).2.2.1 rfl rfl rfl,
   (to_proxy_type_characterization ⟨true, ⟨false, ""⟩, ⟨false⟩⟩).2.2.2 rfl rfl rfl⟩

/-- C10: the duplicate-login rendezvous fails closed: whenever the send to
the server collaborator fails, or the oneshot reply is dropped, or the
reply is false, `check_player_exists` answers true, treating the player as
already connected. -/
theorem check_player_exists_fails_closed (send_ok : Bool) (reply : Option Bool)
    (h : send_ok = false ∨ reply = none ∨ reply = some false) :
    check_player_exists send_ok reply = true := by
  rcases h with h | h | h <;> subst h <;> simp [check_player_exists]

/-- C10 witness: the fail-closed theorem at a dropped oneshot reply. -/
theorem check_player_exists_fails_closed_witness :
    check_player_exists true none = true :=
  check_player_exists_fails_closed true none (Or.inr (Or.inl rfl))

end Pumpkin
